import Mathlib

/-!
# Break-the-bricks-neon: verification of the per-tick simulation core

This file is a shallow embedding of the simulation core of
`src/components/GameScene.tsx` (the `gameLoop` body and its helper
functions), together with theorems settling the frozen claims about it.

Modelling conventions:

* JavaScript numbers are modelled as exact rationals (`ℚ`).  All the
  arithmetic the claims depend on is linear arithmetic over decimal
  literals, where the rational reading coincides with the float reading
  at every comparison the claims touch.  The transcendental functions
  used by the source (`Math.sin`, `Math.cos`, `Math.sqrt` and the
  constant `Math.PI`) are abstracted into an oracle structure
  `RealFns`; no claim depends on their values.
* `Math.random()` and `Date.now()` are not part of the simulation
  state; the source reads them afresh.  They are modelled as an
  explicit per-tick environment `EnvInput` (`rand` is the stream of
  `Math.random()` results in the order the tick draws them, `dateNow`
  is the value `Date.now()` would return).
* The purely decorative particle systems (`state.particles`,
  `state.bossExplosionParticles`) are omitted from the state: the
  source only ever writes them and draws them, no gameplay read
  depends on them.  All canvas drawing is likewise omitted: it reads
  the state but never writes it.
* The terminal callback `onGameOver(score, won)` is modelled by
  appending `(score, won)` to the `onGameOverCalls` log, so that the
  number and order of callback invocations in a tick is observable.
* The brick spawn-threshold comparison `bricksBroken >= totalBricks * 0.7`
  is embedded as `10 * bricksBroken ≥ 7 * totalBricks`.  The double
  nearest to 0.7 is slightly below 7/10, and for every brick count a
  level can produce the two integer comparisons agree.
* The game's mutable `state` object is the structure `GameState`; each
  contiguous mutating block of `gameLoop` becomes one function below,
  and `gameLoopTick` composes them in source order, reproducing the
  source's early `return`s (which abort the rest of a tick) and the
  helper-internal `return`s (which abort only the helper).
-/

namespace BreakBricks

/-- Oracle for the real-valued functions of `Math` used by the source.
No claim depends on their values, so theorems quantify over the oracle
and concrete evaluations instantiate it arbitrarily. -/
structure RealFns where
  sin : ℚ → ℚ
  cos : ℚ → ℚ
  sqrt : ℚ → ℚ
  pi : ℚ

/-- A trivial oracle instance, used for concrete evaluations. -/
def trivialFns : RealFns := { sin := fun _ => 0, cos := fun _ => 0, sqrt := fun _ => 0, pi := 0 }

/-- Per-tick environment: the values `Math.random()` (in draw order)
and `Date.now()` return during the tick. -/
structure EnvInput where
  dateNow : ℚ
  rand : ℕ → ℚ

/-- An environment whose random stream is constant. -/
def constEnv (q : ℚ) : EnvInput := { dateNow := 0, rand := fun _ => q }

/-- Per-tick user input, as delivered by the event handlers between
frames (keyboard held state, optional pointer move, click, Escape). -/
structure UserInput where
  left : Bool
  right : Bool
  mouseMove : Option ℚ
  click : Bool
  escape : Bool

/-- The input of a tick on which the user does nothing. -/
def noInput : UserInput :=
  { left := false, right := false, mouseMove := none, click := false, escape := false }

/-- Level configuration (`Level` in `App.tsx`), immutable for a run. -/
structure Level where
  id : ℕ
  rows : ℕ
  columns : ℕ
  maxBrickHits : ℤ
  ballSpeed : ℚ

/-- `canvas.width` (internal resolution). -/
def canvasWidth : ℚ := 800

/-- `canvas.height` (internal resolution). -/
def canvasHeight : ℚ := 1200

/-- The paddle (`state.paddle`). -/
structure Paddle where
  x : ℚ
  y : ℚ
  width : ℚ
  height : ℚ
  speed : ℚ
deriving DecidableEq

/-- A ball (`interface Ball`). -/
structure Ball where
  x : ℚ
  y : ℚ
  dx : ℚ
  dy : ℚ
  radius : ℚ
deriving DecidableEq

/-- A brick (`interface Brick`).  `originalX`/`originalY` are the
fields `updateBrickMovement` attaches lazily on oscillating levels;
absent is `none`. -/
structure Brick where
  x : ℚ
  y : ℚ
  width : ℚ
  height : ℚ
  hits : ℤ
  maxHits : ℤ
  color : String
  originalX : Option ℚ
  originalY : Option ℚ
deriving DecidableEq

/-- The ten power-up type tags, in `POWERUP_TYPES` declaration order
(which is also the `Object.values` order used for the random draw). -/
inductive PowerupType where
  | perm_damage
  | temp_damage
  | debuff_damage
  | paddle_shrink
  | paddle_grow
  | extra_life
  | shield
  | fast_ball
  | second_ball
  | double_points
deriving DecidableEq

/-- `Object.values(POWERUP_TYPES)`. -/
def powerupTypeValues : List PowerupType :=
  [.perm_damage, .temp_damage, .debuff_damage, .paddle_shrink, .paddle_grow,
   .extra_life, .shield, .fast_ball, .second_ball, .double_points]

/-- A falling power-up (`interface Powerup`). -/
structure Powerup where
  x : ℚ
  y : ℚ
  type : PowerupType
  speed : ℚ
deriving DecidableEq

/-- The boss (`interface Boss`). -/
structure Boss where
  x : ℚ
  y : ℚ
  health : ℤ
  maxHealth : ℤ
  shape : String
  moveTimer : ℕ
  directionX : ℚ
  directionY : ℚ
deriving DecidableEq

/-- The mini-boss (`state.smallBoss`). -/
structure SmallBoss where
  x : ℚ
  y : ℚ
  direction : ℚ
  speed : ℚ
  active : Bool
  spawned : Bool
deriving DecidableEq

/-- A fireball projectile (`interface Fireball`). -/
structure Fireball where
  x : ℚ
  y : ℚ
  dx : ℚ
  dy : ℚ
  color : String
deriving DecidableEq

/-- Held-key state (`state.keys`). -/
structure Keys where
  left : Bool
  right : Bool
deriving DecidableEq

/-- The mutable simulation state (`gameStateRef.current`), minus the
decorative particle arrays (see the file header).  `onGameOverCalls`
logs the invocations of the terminal callback. -/
structure GameState where
  paddle : Paddle
  balls : List Ball
  bricks : List Brick
  powerups : List Powerup
  boss : Option Boss
  bossActive : Bool
  bossDestructionTimer : ℕ
  smallBoss : Option SmallBoss
  fireballs : List Fireball
  keys : Keys
  mouseX : ℚ
  score : ℤ
  lives : ℤ
  isRunning : Bool
  isPaused : Bool
  waitingForLaunch : Bool
  damageBonus : ℤ
  tempDamage : ℤ
  tempDamageTimer : ℕ
  debuffDamage : ℤ
  debuffDamageTimer : ℕ
  paddleSizeMultiplier : ℚ
  paddleSizeTimer : ℕ
  ballSpeedMultiplier : ℚ
  ballSpeedTimer : ℕ
  timeSpeedMultiplier : ℚ
  timeElapsed : ℕ
  shieldActive : Bool
  shieldTimer : ℕ
  doublePointsActive : Bool
  doublePointsTimer : ℕ
  ballColor : String
  paddleColor : String
  brickVerticalOffset : ℚ
  onGameOverCalls : List (ℤ × Bool)
deriving DecidableEq

/-- JavaScript falsiness of an optional number (`!x` is true for both
`undefined` and `0`), used by the lazy `originalX`/`originalY` stores. -/
def jsFalsy (o : Option ℚ) : Bool :=
  match o with
  | none => true
  | some v => v = 0

/-- Paddle movement by held keys and pointer (`gameLoop` lines 443-464). -/
def movePaddle (s : GameState) : GameState :=
  let effectiveWidth := s.paddle.width * s.paddleSizeMultiplier
  let offset := (s.paddle.width - effectiveWidth) / 2
  let s1 := if s.keys.left ∧ s.paddle.x > -offset then
    { s with paddle := { s.paddle with x := s.paddle.x - s.paddle.speed } } else s
  let s2 := if s1.keys.right ∧ s1.paddle.x < canvasWidth - effectiveWidth - offset then
    { s1 with paddle := { s1.paddle with x := s1.paddle.x + s1.paddle.speed } } else s1
  if s2.mouseX > 0 then
    let x0 := s2.mouseX - effectiveWidth / 2
    { s2 with paddle := { s2.paddle with
        x := max (-offset) (min (canvasWidth - effectiveWidth - offset) x0) } }
  else s2

/-- While awaiting launch, pin the first (and an idle second) ball just
above the paddle (`gameLoop` lines 467-479). -/
def holdWaitingBalls (s : GameState) : GameState :=
  if s.waitingForLaunch then
    match s.balls with
    | [] => s
    | b0 :: rest =>
      let b0 := { b0 with x := s.paddle.x + s.paddle.width / 2,
                          y := s.paddle.y - b0.radius - 2 }
      match rest with
      | [] => { s with balls := [b0] }
      | b1 :: rest2 =>
        if b1.dx = 0 ∧ b1.dy = 0 then
          { s with balls := b0 :: { b1 with x := s.paddle.x + s.paddle.width / 2,
                                            y := s.paddle.y - b1.radius - 2 } :: rest2 }
        else { s with balls := b0 :: b1 :: rest2 }
  else s

/-- Ball motion integration (`gameLoop` lines 526-534). -/
def moveBalls (s : GameState) : GameState :=
  if s.waitingForLaunch then s
  else { s with balls := s.balls.map (fun b =>
    { b with x := b.x + b.dx * s.ballSpeedMultiplier * s.timeSpeedMultiplier,
             y := b.y + b.dy * s.ballSpeedMultiplier * s.timeSpeedMultiplier }) }

/-- `updateBossMovement`: oscillate the boss and, every 120 move-timer
ticks, emit a fireball aimed at the paddle centre. -/
def updateBossMovement (M : RealFns) (paddle : Paddle) (boss : Boss) : Boss × Option Fireball :=
  let boss := { boss with moveTimer := boss.moveTimer + 1 }
  let boss := { boss with x := boss.x + boss.directionX * 2 }
  let boss := if boss.x < 50 ∨ boss.x > canvasWidth - 50 then
    { boss with directionX := boss.directionX * (-1) } else boss
  let boss := { boss with y := boss.y + boss.directionY * 1 }
  let boss := if boss.y < 50 ∨ boss.y > 200 then
    { boss with directionY := boss.directionY * (-1) } else boss
  if boss.moveTimer % 120 = 0 then
    let paddleX := paddle.x + paddle.width / 2
    let dx := paddleX - boss.x
    let dy := paddle.y - boss.y
    let distance := M.sqrt (dx * dx + dy * dy)
    let speed : ℚ := 3
    (boss, some { x := boss.x, y := boss.y, dx := dx / distance * speed,
                  dy := dy / distance * speed, color := "#ffaa00" })
  else (boss, none)

/-- Boss movement phase of `gameLoop` (lines 537-539). -/
def bossMovementPhase (M : RealFns) (s : GameState) : GameState :=
  if s.bossActive then
    match s.boss with
    | none => s
    | some boss =>
      let r := updateBossMovement M s.paddle boss
      let s := { s with boss := some r.1 }
      match r.2 with
      | some fb => { s with fireballs := s.fireballs ++ [fb] }
      | none => s
  else s

/-- `updateSmallBoss`: straight crossing motion, deactivating once
off-screen on the far side. -/
def updateSmallBoss (sb : SmallBoss) : SmallBoss :=
  let sb := { sb with x := sb.x + sb.direction * sb.speed }
  if sb.direction = 1 ∧ sb.x > canvasWidth + 50 then { sb with active := false }
  else if sb.direction = -1 ∧ sb.x < -50 then { sb with active := false }
  else sb

/-- Mini-boss movement phase of `gameLoop` (lines 542-544). -/
def smallBossMovementPhase (s : GameState) : GameState :=
  match s.smallBoss with
  | none => s
  | some sb => if sb.active then { s with smallBoss := some (updateSmallBoss sb) } else s

/-- `updateBrickMovement` (oscillating-brick levels): horizontal
oscillation from the wall clock, gradual descent, clamping, and the
unconditional game-over when a live brick reaches the paddle.  The
source's early `return` on that collision only stops the brick scan;
the remainder of the tick still runs. -/
def updateBrickMovement (M : RealFns) (env : EnvInput) (s : GameState) : GameState :=
  let time := env.dateNow * 0.001
  let horizontalOffset := 35 * M.sin (time * 1.2)
  let verticalOffset := s.brickVerticalOffset
  let bricks := s.bricks.map (fun brick =>
    if brick.hits ≤ 0 then brick else
    let ox := if jsFalsy brick.originalX then some brick.x else brick.originalX
    let brick := { brick with originalX := ox, x := ox.getD 0 + horizontalOffset }
    if ¬s.waitingForLaunch then
      let oy := if jsFalsy brick.originalY then some brick.y else brick.originalY
      { brick with originalY := oy, y := oy.getD 0 + verticalOffset * 0.1 }
    else brick)
  let bricks := bricks.map (fun brick =>
    if brick.hits ≤ 0 then brick else
    { brick with x := max 0 (min (canvasWidth - brick.width) brick.x) })
  let s := { s with bricks := bricks,
                    brickVerticalOffset :=
                      if ¬s.waitingForLaunch then s.brickVerticalOffset + 0.3
                      else s.brickVerticalOffset }
  let paddleWidth := s.paddle.width * s.paddleSizeMultiplier
  let paddleX := s.paddle.x + (s.paddle.width - paddleWidth) / 2 + 5
  if s.bricks.any (fun brick => brick.hits > 0 ∧
      brick.x + brick.width > paddleX ∧ brick.x < paddleX + paddleWidth ∧
      brick.y + brick.height > s.paddle.y ∧ brick.y < s.paddle.y + s.paddle.height)
  then { s with isRunning := false, onGameOverCalls := s.onGameOverCalls ++ [(s.score, false)] }
  else s

/-- The body of the fireball-hits-paddle branch of `updateFireballs`
(lines 1528-1538): consume an active shield, otherwise (outside the
boss-destruction grace window) lose a life. -/
def fireballPaddleResolve (s : GameState) : GameState :=
  if s.shieldActive then { s with shieldActive := false }
  else if s.bossDestructionTimer = 0 then { s with lives := s.lives - 1 }
  else s

/-- Worker for `updateFireballs`.  The source iterates the array from
the last index down with `splice` removal; the first argument is the
fireball list in that processing order, `kept` accumulates survivors
(ending in original array order).  Returns the state, the survivors,
and — when the in-helper `return` fired on a life reaching 0 — the
still-unprocessed fireballs. -/
def fireballsGo (pX pW : ℚ) :
    List Fireball → List Fireball → GameState → GameState × List Fireball × List Fireball
  | [], kept, s => (s, kept, [])
  | f :: rest, kept, s =>
    let f := { f with x := f.x + f.dx, y := f.y + f.dy }
    if f.y > canvasHeight then fireballsGo pX pW rest kept s
    else if f.y + 8 > s.paddle.y ∧ f.x > pX ∧ f.x < pX + pW ∧
        f.y < s.paddle.y + s.paddle.height then
      let s := fireballPaddleResolve s
      if s.lives ≤ 0 then
        ({ s with isRunning := false,
                  onGameOverCalls := s.onGameOverCalls ++ [(s.score, false)] }, kept, rest)
      else fireballsGo pX pW rest kept s
    else fireballsGo pX pW rest (f :: kept) s

/-- `updateFireballs`: move fireballs, drop off-screen ones, resolve
paddle hits.  `pX`/`pW` are the effective paddle x and width captured
once per tick.  Its internal `return` (on a life reaching 0) leaves
earlier-indexed fireballs unprocessed; the tick still continues. -/
def updateFireballs (pX pW : ℚ) (s : GameState) : GameState :=
  let r := fireballsGo pX pW s.fireballs.reverse [] s
  { r.1 with fireballs := r.2.2.reverse ++ r.2.1 }

/-- Mini-boss fireball emission (`gameLoop` lines 555-573): while the
mini-boss is active, each tick has a 2% chance to emit a fireball
aimed at the paddle.  Returns the next random-stream index. -/
def smallBossFireSpawn (M : RealFns) (env : EnvInput) (k : ℕ) (s : GameState) :
    ℕ × GameState :=
  match s.smallBoss with
  | none => (k, s)
  | some sb =>
    if sb.active then
      if env.rand k < 0.02 then
        let paddleX := s.paddle.x + s.paddle.width / 2
        let dx := paddleX - sb.x
        let dy := s.paddle.y - sb.y
        let distance := M.sqrt (dx * dx + dy * dy)
        let speed : ℚ := 2.5
        (k + 1, { s with fireballs := s.fireballs ++
          [{ x := sb.x, y := sb.y, dx := dx / distance * speed,
             dy := dy / distance * speed, color := "#ff0000" }] })
      else (k + 1, s)
    else (k, s)

/-- The shield-plane bounce block (`gameLoop` lines 615-629): a
downward ball crossing the line just below the paddle has its `dy`
inverted; the shield flag itself is not touched. -/
def shieldBounceCheck (shieldActive : Bool) (paddle : Paddle) (ball : Ball) : Ball :=
  if shieldActive ∧ ball.y + ball.radius > paddle.y + paddle.height + 5 ∧
      ball.y - ball.radius < paddle.y + paddle.height + 12 ∧ ball.dy > 0 then
    { ball with dy := -ball.dy }
  else ball

/-- Wall, paddle and shield collisions for one ball
(`gameLoop` lines 576-630). -/
def ballWallsPaddleShield (M : RealFns) (pX pW : ℚ) (shieldActive : Bool)
    (paddle : Paddle) (ball : Ball) : Ball :=
  let ball := if ball.x + ball.radius > canvasWidth then
    { ball with dx := -(abs ball.dx) } else ball
  let ball := if ball.x - ball.radius < 0 then { ball with dx := abs ball.dx } else ball
  let ball := if ball.y - ball.radius < 0 then { ball with dy := abs ball.dy } else ball
  let ball :=
    if ball.y < paddle.y + paddle.height * 1.5 then
      if ball.y + ball.radius > paddle.y ∧ ball.x > pX ∧ ball.x < pX + pW ∧ ball.dy > 0 then
        let hitPos := (ball.x - pX) / pW
        let angle := (hitPos - 0.5) * M.pi * 0.6
        let speed := M.sqrt (ball.dx ^ 2 + ball.dy ^ 2)
        { ball with dx := speed * M.sin angle, dy := -(abs (speed * M.cos angle)) }
      else ball
    else ball
  shieldBounceCheck shieldActive paddle ball

/-- Wall/paddle/shield phase over all balls. -/
def wallsPaddleShieldPhase (M : RealFns) (pX pW : ℚ) (s : GameState) : GameState :=
  { s with balls := s.balls.map (ballWallsPaddleShield M pX pW s.shieldActive s.paddle) }

/-- Whether a ball survives the below-the-field check
(`!state.waitingForLaunch && ball.y - ball.radius > canvas.height`
removes it). -/
def ballSurvives (waiting : Bool) (b : Ball) : Bool :=
  waiting ∨ ¬(b.y - b.radius > canvasHeight)

/-- The fresh pinned ball created after a non-fatal total ball loss
(`gameLoop` lines 662-670). -/
def freshBall (paddle : Paddle) : Ball :=
  { x := paddle.x + paddle.width / 2, y := paddle.y - 10 - 2, dx := 0, dy := 0, radius := 15 }

/-- Ball-loss block (`gameLoop` lines 632-675): remove fallen balls;
if that empties the ball list, consume the shield or lose a life, and
either end the run (aborting the rest of the tick, flag `true`) or
respawn a pinned ball. -/
def ballLossBlock (s : GameState) : GameState × Bool :=
  let kept := s.balls.filter (ballSurvives s.waitingForLaunch)
  let ballLost := kept.length < s.balls.length
  let s1 := { s with balls := kept }
  if ballLost ∧ kept.length = 0 then
    let s2 := if s1.shieldActive then { s1 with shieldActive := false }
              else { s1 with lives := s1.lives - 1 }
    if s2.lives ≤ 0 then
      ({ s2 with isRunning := false,
                 onGameOverCalls := s2.onGameOverCalls ++ [(s2.score, false)] }, true)
    else ({ s2 with balls := [freshBall s2.paddle], waitingForLaunch := true }, false)
  else (s1, false)

/-- `activeBricks` census (`gameLoop` lines 713-718). -/
def countActiveBricks (bricks : List Brick) : ℕ :=
  (bricks.filter (fun b => b.hits > 0)).length

/-- Axis-aligned overlap test between a ball and a brick
(`gameLoop` lines 729-734). -/
def ballOverlapsBrick (ball : Ball) (b : Brick) : Prop :=
  ball.x + ball.radius > b.x ∧ ball.x - ball.radius < b.x + b.width ∧
  ball.y + ball.radius > b.y ∧ ball.y - ball.radius < b.y + b.height

instance (ball : Ball) (b : Brick) : Decidable (ballOverlapsBrick ball b) := by
  unfold ballOverlapsBrick; infer_instance

/-- Indices of the live bricks the ball currently overlaps, in the
source's collection order (the scan runs from the last index down). -/
def collidingIndices (ball : Ball) (bricks : List Brick) : List ℕ :=
  ((List.range bricks.length).reverse).filter (fun i =>
    match bricks[i]? with
    | some b => b.hits > 0 ∧ ballOverlapsBrick ball b
    | none => False)

/-- Ball-boss collision block (`gameLoop` lines 739-766): on overlap
with the fixed 48-pixel hit box, the boss loses
`1 + damageBonus + tempDamage` health and the ball is pushed away from
the boss centre. -/
def bossBallCollision (s : GameState) (ball : Ball) : GameState × Ball :=
  if s.bossActive then
    match s.boss with
    | none => (s, ball)
    | some boss =>
      let bossHitboxSize : ℚ := 40 * 1.2
      if ball.x + ball.radius > boss.x - bossHitboxSize ∧
          ball.x - ball.radius < boss.x + bossHitboxSize ∧
          ball.y + ball.radius > boss.y - bossHitboxSize ∧
          ball.y - ball.radius < boss.y + bossHitboxSize then
        let boss2 := { boss with health := boss.health - (1 + s.damageBonus + s.tempDamage) }
        let ball2 := { ball with
          dx := if ball.x < boss.x then -(abs ball.dx) else abs ball.dx,
          dy := if ball.y < boss.y then -(abs ball.dy) else abs ball.dy }
        ({ s with boss := some boss2 }, ball2)
      else (s, ball)
  else (s, ball)

/-- Ball-mini-boss collision block (`gameLoop` lines 769-789): any
overlap with the 20-pixel hit box awards 100 points and deactivates
the mini-boss; the ball is not bounced. -/
def smallBossBallCollision (s : GameState) (ball : Ball) : GameState :=
  match s.smallBoss with
  | none => s
  | some sb =>
    if sb.active then
      let smallBossHitboxSize : ℚ := 20
      if ball.x + ball.radius > sb.x - smallBossHitboxSize ∧
          ball.x - ball.radius < sb.x + smallBossHitboxSize ∧
          ball.y + ball.radius > sb.y - smallBossHitboxSize ∧
          ball.y - ball.radius < sb.y + smallBossHitboxSize then
        { s with score := s.score + 100, smallBoss := some { sb with active := false } }
      else s
    else s

/-- Single-brick bounce resolution (`gameLoop` lines 793-819): compare
penetration depths and invert exactly one velocity component
(`dx` when the horizontal overlap is strictly smaller, `dy` otherwise). -/
def singleBrickBounce (ball : Ball) (brick : Brick) : Ball :=
  let ballLeft := ball.x - ball.radius
  let ballRight := ball.x + ball.radius
  let ballTop := ball.y - ball.radius
  let ballBottom := ball.y + ball.radius
  let brickLeft := brick.x
  let brickRight := brick.x + brick.width
  let brickTop := brick.y
  let brickBottom := brick.y + brick.height
  let overlapX := min (ballRight - brickLeft) (brickRight - ballLeft)
  let overlapY := min (ballBottom - brickTop) (brickBottom - ballTop)
  if overlapX < overlapY then { ball with dx := -ball.dx }
  else { ball with dy := -ball.dy }

/-- The horizontal penetration depth of the single-brick heuristic. -/
def horizPenetration (ball : Ball) (brick : Brick) : ℚ :=
  min (ball.x + ball.radius - brick.x) (brick.x + brick.width - (ball.x - ball.radius))

/-- The vertical penetration depth of the single-brick heuristic. -/
def vertPenetration (ball : Ball) (brick : Brick) : ℚ :=
  min (ball.y + ball.radius - brick.y) (brick.y + brick.height - (ball.y - ball.radius))

/-- Bounce resolution over the colliding set (`gameLoop` lines
791-832): one brick uses the penetration heuristic, two or more use
the min-top/max-bottom span test. -/
def brickBounceResolve (ball : Ball) (bs : List Brick) : Ball :=
  match bs with
  | [] => ball
  | [b] => singleBrickBounce ball b
  | b :: rest =>
    let minTop := rest.foldl (fun m k => min m k.y) b.y
    let maxBottom := rest.foldl (fun m k => max m (k.y + k.height)) (b.y + b.height)
    if ball.y < minTop ∨ ball.y > maxBottom then { ball with dy := -ball.dy }
    else { ball with dx := -ball.dx }

/-- The guard `(!state.smallBoss || !state.smallBoss.spawned)` of the
mini-boss spawn check. -/
def smallBossNotSpawned : Option SmallBoss → Bool
  | none => true
  | some sb => !sb.spawned

/-- Consequences of a brick reaching `hits ≤ 0` (`gameLoop` lines
845-885): score award (doubled under double-points), the stale-census
mini-boss spawn check, and the 25% power-up roll. -/
def brickDestroyedEffects (activeBricks : ℕ) (env : EnvInput) (brick : Brick)
    (k : ℕ) (s : GameState) : ℕ × GameState :=
  let s := { s with score := s.score +
    10 * brick.maxHits * (if s.doublePointsActive then 2 else 1) }
  let totalBricks := s.bricks.length
  let bricksBroken := totalBricks - activeBricks
  let ks :=
    if 10 * bricksBroken ≥ 7 * totalBricks ∧ smallBossNotSpawned s.smallBoss then
      let direction : ℚ := if env.rand k < 0.5 then 1 else -1
      let startX : ℚ := if direction = 1 then -30 else canvasWidth + 30
      let y := canvasHeight * 0.3 + env.rand (k + 1) * (canvasHeight * 0.4)
      let speed := 2 + env.rand (k + 2) * 1
      (k + 3, { s with smallBoss := some { x := startX, y := y, direction := direction,
                                           speed := speed, active := true, spawned := true } })
    else (k, s)
  let k := ks.1
  let s := ks.2
  if env.rand k < 0.25 then
    let idx := (Rat.floor (env.rand (k + 1) * 10)).toNat
    let t := powerupTypeValues.getD idx .perm_damage
    (k + 2, { s with powerups := s.powerups ++
      [{ x := brick.x + brick.width / 2, y := brick.y + brick.height / 2,
         type := t, speed := 2 }] })
  else (k + 1, s)

/-- Damage application over the colliding bricks (`gameLoop` lines
834-886): with the debuff flag active every brick is skipped
(`continue`); otherwise each loses `1 + damageBonus + tempDamage` hits
and a brick reaching 0 triggers `brickDestroyedEffects`. -/
def damageBricks (activeBricks : ℕ) (env : EnvInput) :
    List ℕ → ℕ → GameState → ℕ × GameState
  | [], k, s => (k, s)
  | i :: rest, k, s =>
    match s.bricks[i]? with
    | none => damageBricks activeBricks env rest k s
    | some brick =>
      if s.debuffDamage > 0 then damageBricks activeBricks env rest k s
      else
        let newHits := brick.hits - (1 + s.damageBonus + s.tempDamage)
        let s := { s with bricks := s.bricks.set i { brick with hits := newHits } }
        if newHits ≤ 0 then
          let ks := brickDestroyedEffects activeBricks env { brick with hits := newHits } k s
          damageBricks activeBricks env rest ks.1 ks.2
        else damageBricks activeBricks env rest k s

/-- One iteration of the per-ball collision loop (`gameLoop` lines
721-888): collect the overlapping live bricks, run the boss and
mini-boss collision blocks, resolve the bounce, then apply damage. -/
def ballBrickStep (activeBricks : ℕ) (env : EnvInput) (p : ℕ × GameState) (i : ℕ) :
    ℕ × GameState :=
  match p.2.balls[i]? with
  | none => p
  | some ball =>
    let collidingIdx := collidingIndices ball p.2.bricks
    let sb := bossBallCollision p.2 ball
    let s2 := smallBossBallCollision sb.1 sb.2
    let ball2 := brickBounceResolve sb.2 (collidingIdx.filterMap (fun j => s2.bricks[j]?))
    let s3 := { s2 with balls := s2.balls.set i ball2 }
    damageBricks activeBricks env collidingIdx p.1 s3

/-- The whole per-ball collision phase. -/
def ballsBricksPhase (activeBricks : ℕ) (env : EnvInput) (k : ℕ) (s : GameState) :
    ℕ × GameState :=
  (List.range s.balls.length).foldl (ballBrickStep activeBricks env) (k, s)

/-- Effect-timer countdowns (`gameLoop` lines 957-996). -/
def updateTimers (s : GameState) : GameState :=
  let s := if 0 < s.tempDamageTimer then
    let t := s.tempDamageTimer - 1
    if t = 0 then { s with tempDamageTimer := t, tempDamage := 0, ballColor := "#00d4ff" }
    else { s with tempDamageTimer := t }
  else s
  let s := if 0 < s.debuffDamageTimer then
    let t := s.debuffDamageTimer - 1
    if t = 0 then { s with debuffDamageTimer := t, debuffDamage := 0, ballColor := "#00d4ff" }
    else { s with debuffDamageTimer := t }
  else s
  let s := if 0 < s.paddleSizeTimer then
    let t := s.paddleSizeTimer - 1
    if t = 0 then { s with paddleSizeTimer := t, paddleSizeMultiplier := 1,
                           paddleColor := "#00d4ff" }
    else { s with paddleSizeTimer := t }
  else s
  let s := if 0 < s.ballSpeedTimer then
    let t := s.ballSpeedTimer - 1
    if t = 0 then { s with ballSpeedTimer := t, ballSpeedMultiplier := 1 }
    else { s with ballSpeedTimer := t }
  else s
  let s := if 0 < s.shieldTimer then
    let t := s.shieldTimer - 1
    if t = 0 then { s with shieldTimer := t, shieldActive := false }
    else { s with shieldTimer := t }
  else s
  if 0 < s.doublePointsTimer then
    let t := s.doublePointsTimer - 1
    if t = 0 then { s with doublePointsTimer := t, doublePointsActive := false }
    else { s with doublePointsTimer := t }
  else s

/-- The global time-based speed ramp (`gameLoop` lines 998-1004). -/
def timeRamp (s : GameState) : GameState :=
  let s := { s with timeElapsed := s.timeElapsed + 1 }
  if s.timeElapsed % (10 * 60) = 0 then
    if s.timeSpeedMultiplier < 1.5 then
      { s with timeSpeedMultiplier := s.timeSpeedMultiplier + 0.05 }
    else s
  else s

/-- `applyPowerupEffect`: the ten-way power-up switch. -/
def applyPowerupEffect (level : Level) (t : PowerupType) (s : GameState) : GameState :=
  match t with
  | .perm_damage => { s with damageBonus := s.damageBonus + 1, ballColor := "#fe0131" }
  | .temp_damage =>
    let s := if s.damageBonus > 0 then { s with damageBonus := 0, ballColor := "#00d4ff" }
             else s
    { s with tempDamage := 1, tempDamageTimer := 20 * 60, ballColor := "#fe3b01" }
  | .paddle_shrink => { s with paddleSizeMultiplier := 0.8, paddleSizeTimer := 10 * 60,
                               paddleColor := "#019afe" }
  | .paddle_grow => { s with paddleSizeMultiplier := 1.3, paddleSizeTimer := 20 * 60,
                             paddleColor := "#01fe65" }
  | .extra_life => if s.lives < 3 then { s with lives := s.lives + 1 } else s
  | .shield => { s with shieldActive := true, shieldTimer := 20 * 60 }
  | .fast_ball => { s with ballSpeedMultiplier := 1.5, ballSpeedTimer := 10 * 60 }
  | .second_ball =>
    if s.balls.length < 2 then
      match s.balls with
      | [] => s
      | firstBall :: _ =>
        if firstBall.dx = 0 ∧ firstBall.dy = 0 then
          { s with balls := s.balls ++
            [{ x := s.paddle.x + s.paddle.width / 2, y := s.paddle.y - 10 - 2,
               dx := 0, dy := 0, radius := 15 }] }
        else
          { s with balls := s.balls ++
            [{ x := s.paddle.x + s.paddle.width / 2, y := s.paddle.y - 10 - 2,
               dx := 0, dy := -level.ballSpeed, radius := 15 }] }
    else s
  | .debuff_damage => { s with debuffDamage := 1, debuffDamageTimer := 15 * 60,
                               ballColor := "#fe019a" }
  | .double_points => { s with doublePointsActive := true, doublePointsTimer := 15 * 60 }

/-- Worker for the power-up phase; the first argument is the power-up
list in processing order (the source iterates from the last index
down), `kept` accumulates survivors in original array order. -/
def powerupsGo (level : Level) (pX pW : ℚ) :
    List Powerup → List Powerup → GameState → GameState × List Powerup
  | [], kept, s => (s, kept)
  | p :: rest, kept, s =>
    let p := { p with y := p.y + p.speed }
    if p.y > canvasHeight then powerupsGo level pX pW rest kept s
    else if p.y + 15 > s.paddle.y ∧ p.x > pX ∧ p.x < pX + pW ∧
        p.y < s.paddle.y + s.paddle.height then
      powerupsGo level pX pW rest kept (applyPowerupEffect level p.type s)
    else powerupsGo level pX pW rest (p :: kept) s

/-- Power-up fall/pickup phase (`gameLoop` lines 1007-1028). -/
def powerupsPhase (level : Level) (pX pW : ℚ) (s : GameState) : GameState :=
  let r := powerupsGo level pX pW s.powerups.reverse [] s
  { r.1 with powerups := r.2 }

/-- `startBossBattle`: spawn the boss at top centre with health equal
to the level id and a shape from the six-entry cycle. -/
def bossShapes : List String := ["ant", "spider", "bee", "beetle", "butterfly", "aphid"]

def startBossBattle (level : Level) (s : GameState) : GameState :=
  let shapeIndex := ((level.id - 1) / 5) % bossShapes.length
  { s with boss := some { x := canvasWidth / 2, y := 100, health := (level.id : ℤ),
                          maxHealth := (level.id : ℤ), shape := bossShapes.getD shapeIndex "",
                          moveTimer := 0, directionX := 1, directionY := 1 },
           bossActive := true }

/-- Whether the current boss's health is at or below 0
(`state.boss.health <= 0`, false with no boss object). -/
def bossHealthDepleted : Option Boss → Bool
  | none => false
  | some b => decide (b.health ≤ 0)

/-- Boss-defeat detection and destruction countdown (`gameLoop` lines
1221-1242): health reaching 0 arms the 120-tick countdown; while the
countdown runs it decrements, and on reaching 0 the run ends with a
win. -/
def bossDefeatAndCountdown (s : GameState) : GameState :=
  let s := if s.bossActive ∧ bossHealthDepleted s.boss ∧
      s.bossDestructionTimer = 0 then
    { s with bossDestructionTimer := 120 }
  else s
  if 0 < s.bossDestructionTimer then
    let t := s.bossDestructionTimer - 1
    if t = 0 then
      { s with bossDestructionTimer := t, isRunning := false,
               onGameOverCalls := s.onGameOverCalls ++ [(s.score, true)] }
    else { s with bossDestructionTimer := t }
  else s

/-- End-of-tick win evaluation (`gameLoop` lines 1207-1242): with no
live bricks, a boss level with no active boss spawns the boss, a
non-boss situation wins immediately (aborting the rest of the block);
then boss defeat and the destruction countdown are processed. -/
def winAndBossPhase (level : Level) (activeBricks : ℕ) (s : GameState) : GameState :=
  if activeBricks = 0 then
    if level.id % 5 = 0 ∧ ¬s.bossActive then
      bossDefeatAndCountdown (startBossBattle level s)
    else if ¬s.bossActive then
      { s with isRunning := false,
               onGameOverCalls := s.onGameOverCalls ++ [(s.score, true)] }
    else bossDefeatAndCountdown s
  else bossDefeatAndCountdown s

/-- One invocation of `gameLoop` with the run live and unpaused: the
whole per-tick mutation pipeline in source order.  The `return`s at
the ball-loss game over and at the brick-clear win abort the rest of
the tick; the game-over paths inside `updateBrickMovement` and
`updateFireballs` do not. -/
def gameLoopTick (M : RealFns) (level : Level) (env : EnvInput) (s0 : GameState) :
    GameState :=
  if !s0.isRunning || s0.isPaused then s0 else
  let s1 := movePaddle s0
  let s2 := holdWaitingBalls s1
  let paddleWidth := s2.paddle.width * s2.paddleSizeMultiplier
  let paddleXeff := s2.paddle.x + (s2.paddle.width - paddleWidth) / 2
  let s3 := moveBalls s2
  let s4 := bossMovementPhase M s3
  let s5 := smallBossMovementPhase s4
  let s6 := if level.id % 5 = 0 then updateBrickMovement M env s5 else s5
  let s7 := updateFireballs paddleXeff paddleWidth s6
  let p8 := smallBossFireSpawn M env 0 s7
  let s8 := p8.2
  let s9 := wallsPaddleShieldPhase M paddleXeff paddleWidth s8
  let r10 := ballLossBlock s9
  if r10.2 then r10.1 else
  let s10 := r10.1
  let activeBricks := countActiveBricks s10.bricks
  let p11 := ballsBricksPhase activeBricks env p8.1 s10
  let s11 := p11.2
  let s12 := updateTimers s11
  let s13 := timeRamp s12
  let s14 := powerupsPhase level paddleXeff paddleWidth s13
  winAndBossPhase level activeBricks s14

/-- The input handlers that run between frames (Escape pause toggle,
held keys, pointer position, the click/launch handler). -/
def applyInput (level : Level) (inp : UserInput) (s : GameState) : GameState :=
  let s := if inp.escape then { s with isPaused := !s.isPaused } else s
  let s := { s with keys := { left := inp.left, right := inp.right } }
  let s := match inp.mouseMove with
    | some mx => { s with mouseX := mx }
    | none => s
  if inp.click && s.waitingForLaunch && !s.isPaused then
    match s.balls with
    | [] => s
    | b0 :: rest =>
      let b0 := { b0 with dx := 0, dy := -level.ballSpeed }
      let balls :=
        match rest with
        | [] => [b0]
        | b1 :: rest2 =>
          if b1.dx = 0 ∧ b1.dy = 0 then b0 :: { b1 with dx := 0, dy := -level.ballSpeed } :: rest2
          else b0 :: b1 :: rest2
      { s with balls := balls, waitingForLaunch := false }
  else s

/-- One full frame as observed from outside: apply the buffered user
input, then run one `gameLoop` tick under the given environment. -/
def stepGame (M : RealFns) (level : Level) (inp : UserInput) (env : EnvInput)
    (s : GameState) : GameState :=
  gameLoopTick M level env (applyInput level inp s)

/-! ## Concrete run states used by the evaluations below -/

/-- The paddle exactly as the source initialises it
(`x = 800/2 - 168/2 + 5`, `y = 1200 - 200`). -/
def basePaddle : Paddle := { x := 321, y := 1000, width := 168, height := 25, speed := 8 }

/-- A mid-run state with the source's initial effect values: one life
bank of 3, no active effects, multipliers 1, run live and launched. -/
def baseState : GameState :=
  { paddle := basePaddle, balls := [], bricks := [], powerups := [], boss := none,
    bossActive := false, bossDestructionTimer := 0, smallBoss := none, fireballs := [],
    keys := { left := false, right := false }, mouseX := 0, score := 0, lives := 3,
    isRunning := true, isPaused := false, waitingForLaunch := false,
    damageBonus := 0, tempDamage := 0, tempDamageTimer := 0,
    debuffDamage := 0, debuffDamageTimer := 0,
    paddleSizeMultiplier := 1, paddleSizeTimer := 0,
    ballSpeedMultiplier := 1, ballSpeedTimer := 0,
    timeSpeedMultiplier := 1, timeElapsed := 100,
    shieldActive := false, shieldTimer := 0,
    doublePointsActive := false, doublePointsTimer := 0,
    ballColor := "#00d4ff", paddleColor := "#00d4ff",
    brickVerticalOffset := 0, onGameOverCalls := [] }

/-- An already-destroyed brick (`hits = 0`). -/
def deadBrick : Brick :=
  { x := 400, y := 50, width := 70, height := 45, hits := 0, maxHits := 1,
    color := "#00d4ff", originalX := none, originalY := none }

/-- A live brick positioned away from everything. -/
def farBrick : Brick :=
  { x := 600, y := 50, width := 70, height := 45, hits := 1, maxHits := 1,
    color := "#00d4ff", originalX := none, originalY := none }

/-- A live one-hit brick the test ball is about to strike. -/
def hitBrick : Brick :=
  { x := 100, y := 150, width := 70, height := 45, hits := 1, maxHits := 1,
    color := "#00d4ff", originalX := none, originalY := none }

/-- A mini-boss that has already spawned and crossed off-screen. -/
def idleSmallBoss : SmallBoss :=
  { x := 900, y := 400, direction := 1, speed := 2.5, active := false, spawned := true }

/-- A non-boss level. -/
def lvl1 : Level := { id := 1, rows := 4, columns := 8, maxBrickHits := 1, ballSpeed := 4 }

/-- A boss level (`id % 5 = 0`). -/
def lvl5 : Level := { id := 5, rows := 4, columns := 8, maxBrickHits := 2, ballSpeed := 4 }

/-- Run state for the double-callback evaluation: level cleared last
tick, one life left, a leftover mini-boss fireball about to reach the
paddle. -/
def c1State : GameState :=
  { baseState with
    balls := [{ x := 400, y := 600, dx := 2, dy := -4, radius := 15 }],
    bricks := [deadBrick, deadBrick, deadBrick],
    fireballs := [{ x := 350, y := 985, dx := 0, dy := 10, color := "#ff0000" }],
    smallBoss := some idleSmallBoss,
    score := 620, lives := 1 }

/-- Run state for the negative-lives evaluation: one life left, a
fireball reaching the paddle on the same tick the last ball leaves the
bottom of the field. -/
def c8State : GameState :=
  { baseState with
    balls := [{ x := 400, y := 1216, dx := 0, dy := 6, radius := 15 }],
    bricks := [farBrick, farBrick],
    fireballs := [{ x := 350, y := 985, dx := 0, dy := 10, color := "#ff0000" }],
    smallBoss := some idleSmallBoss,
    score := 620, lives := 1 }

/-- A boss whose health has just reached 0 (destruction countdown
running). -/
def c5Boss : Boss :=
  { x := 400, y := 100, health := 0, maxHealth := 5, shape := "ant", moveTimer := 10,
    directionX := 1, directionY := 1 }

/-- Run state inside the boss-destruction window: a ball overlapping
the boss, a boss fireball about to reach the paddle, and an active
shield. -/
def c5State : GameState :=
  { baseState with
    balls := [{ x := 398, y := 150, dx := 2, dy := -5, radius := 15 }],
    bricks := [deadBrick, deadBrick, deadBrick],
    boss := some c5Boss, bossActive := true, bossDestructionTimer := 60,
    fireballs := [{ x := 350, y := 985, dx := 0, dy := 10, color := "#ffaa00" }],
    shieldActive := true, shieldTimer := 500, lives := 3, score := 900 }

/-- Run state about to destroy one brick out of ten (the tick rolls
the 25% power-up chance). -/
def c3State : GameState :=
  { baseState with
    balls := [{ x := 135, y := 131, dx := 0, dy := 5, radius := 15 }],
    bricks := [hitBrick, farBrick, farBrick, farBrick, farBrick, farBrick, farBrick,
               farBrick, farBrick, farBrick] }

/-- Run state in which this tick's brick destruction brings the
destroyed fraction from 6/10 to exactly 7/10. -/
def c6State : GameState :=
  { baseState with
    balls := [{ x := 135, y := 131, dx := 0, dy := 5, radius := 15 }],
    bricks := [hitBrick, deadBrick, deadBrick, deadBrick, deadBrick, deadBrick, deadBrick,
               farBrick, farBrick, farBrick] }

/-- A ball whose centre sits exactly on a brick corner, giving equal
horizontal and vertical penetration depths. -/
def c7Ball : Ball := { x := 100, y := 100, dx := 3, dy := 4, radius := 15 }

/-- The brick of the penetration-tie evaluation. -/
def c7Brick : Brick :=
  { x := 100, y := 100, width := 70, height := 45, hits := 2, maxHits := 2,
    color := "#00d4ff", originalX := none, originalY := none }

/-! ## Helper lemmas -/

/-- A list never equals itself with one more element appended. -/
theorem self_ne_append_single {α : Type} (l : List α) (a : α) : l ≠ l ++ [a] := by
  intro h
  have := congrArg List.length h
  simp at this

/-- With the debuff flag active, the brick-damage loop is a no-op: no
brick loses hits, no score, power-up, or mini-boss consequence fires,
and no random draw is consumed. -/
theorem damageBricks_debuff_eq (activeBricks : ℕ) (env : EnvInput) (idxs : List ℕ)
    (k : ℕ) (s : GameState) (h : s.debuffDamage > 0) :
    damageBricks activeBricks env idxs k s = (k, s) := by
  induction idxs with
  | nil => rfl
  | cons i rest ih =>
    unfold damageBricks
    cases hb : s.bricks[i]? with
    | none => exact ih
    | some brick =>
      dsimp only
      rw [if_pos h]
      exact ih

/-- The mini-boss slot is idle: absent, or present but inactive (so
the tick draws no mini-boss random sample). -/
def smallBossIdleOpt : Option SmallBoss → Prop
  | none => True
  | some sb => sb.active = false

/-- The mini-boss slot holds an already-spawned mini-boss. -/
def spawnedFlag (o : Option SmallBoss) : Prop :=
  ∃ sb, o = some sb ∧ sb.spawned = true

theorem movePaddle_smallBoss (s : GameState) : (movePaddle s).smallBoss = s.smallBoss := by
  simp only [movePaddle]
  repeat' split
  all_goals rfl

theorem movePaddle_debuff (s : GameState) :
    (movePaddle s).debuffDamage = s.debuffDamage := by
  simp only [movePaddle]
  repeat' split
  all_goals rfl

theorem holdWaitingBalls_smallBoss (s : GameState) :
    (holdWaitingBalls s).smallBoss = s.smallBoss := by
  simp only [holdWaitingBalls]
  repeat' split
  all_goals rfl

theorem holdWaitingBalls_debuff (s : GameState) :
    (holdWaitingBalls s).debuffDamage = s.debuffDamage := by
  simp only [holdWaitingBalls]
  repeat' split
  all_goals rfl

theorem moveBalls_smallBoss (s : GameState) : (moveBalls s).smallBoss = s.smallBoss := by
  simp only [moveBalls]
  split <;> rfl

theorem moveBalls_debuff (s : GameState) :
    (moveBalls s).debuffDamage = s.debuffDamage := by
  simp only [moveBalls]
  split <;> rfl

theorem bossMovementPhase_smallBoss (M : RealFns) (s : GameState) :
    (bossMovementPhase M s).smallBoss = s.smallBoss := by
  simp only [bossMovementPhase]
  repeat' split
  all_goals rfl

theorem bossMovementPhase_debuff (M : RealFns) (s : GameState) :
    (bossMovementPhase M s).debuffDamage = s.debuffDamage := by
  simp only [bossMovementPhase]
  repeat' split
  all_goals rfl

theorem smallBossMovementPhase_debuff (s : GameState) :
    (smallBossMovementPhase s).debuffDamage = s.debuffDamage := by
  simp only [smallBossMovementPhase]
  repeat' split
  all_goals rfl

/-- With an idle mini-boss slot the movement phase is the identity. -/
theorem smallBossMovementPhase_idle (s : GameState) (h : smallBossIdleOpt s.smallBoss) :
    smallBossMovementPhase s = s := by
  unfold smallBossMovementPhase
  cases hs : s.smallBoss with
  | none => rfl
  | some sb =>
    rw [hs] at h
    simp only [smallBossIdleOpt] at h
    simp [h]

/-- The movement phase never clears the spawned flag. -/
theorem smallBossMovementPhase_spawnedFlag (s : GameState)
    (h : spawnedFlag s.smallBoss) :
    spawnedFlag (smallBossMovementPhase s).smallBoss := by
  unfold smallBossMovementPhase
  obtain ⟨sb, heq, hsp⟩ := h
  rw [heq]
  dsimp only
  by_cases ha : sb.active = true
  · rw [if_pos ha]
    refine ⟨updateSmallBoss sb, rfl, ?_⟩
    simp only [updateSmallBoss]
    repeat' split
    all_goals exact hsp
  · rw [if_neg ha]
    exact ⟨sb, heq, hsp⟩

theorem updateBrickMovement_smallBoss (M : RealFns) (env : EnvInput) (s : GameState) :
    (updateBrickMovement M env s).smallBoss = s.smallBoss := by
  simp only [updateBrickMovement, apply_ite GameState.smallBoss, ite_self]

theorem fireballPaddleResolve_smallBoss (s : GameState) :
    (fireballPaddleResolve s).smallBoss = s.smallBoss := by
  simp only [fireballPaddleResolve]
  repeat' split
  all_goals rfl

theorem fireballPaddleResolve_debuff (s : GameState) :
    (fireballPaddleResolve s).debuffDamage = s.debuffDamage := by
  simp only [fireballPaddleResolve]
  repeat' split
  all_goals rfl

theorem fireballsGo_smallBoss (pX pW : ℚ) (l kept : List Fireball) (s : GameState) :
    (fireballsGo pX pW l kept s).1.smallBoss = s.smallBoss := by
  induction l generalizing kept s with
  | nil => rfl
  | cons f rest ih =>
    unfold fireballsGo
    dsimp only
    split
    · exact ih _ _
    · split
      · split
        · exact fireballPaddleResolve_smallBoss s
        · exact (ih _ _).trans (fireballPaddleResolve_smallBoss s)
      · exact ih _ _

theorem fireballsGo_debuff (pX pW : ℚ) (l kept : List Fireball) (s : GameState) :
    (fireballsGo pX pW l kept s).1.debuffDamage = s.debuffDamage := by
  induction l generalizing kept s with
  | nil => rfl
  | cons f rest ih =>
    unfold fireballsGo
    dsimp only
    split
    · exact ih _ _
    · split
      · split
        · exact fireballPaddleResolve_debuff s
        · exact (ih _ _).trans (fireballPaddleResolve_debuff s)
      · exact ih _ _

theorem updateFireballs_smallBoss (pX pW : ℚ) (s : GameState) :
    (updateFireballs pX pW s).smallBoss = s.smallBoss :=
  fireballsGo_smallBoss pX pW s.fireballs.reverse [] s

theorem updateFireballs_debuff (pX pW : ℚ) (s : GameState) :
    (updateFireballs pX pW s).debuffDamage = s.debuffDamage :=
  fireballsGo_debuff pX pW s.fireballs.reverse [] s

/-- With an idle mini-boss slot the fire-spawn block draws nothing and
changes nothing. -/
theorem smallBossFireSpawn_idle (M : RealFns) (env : EnvInput) (k : ℕ) (s : GameState)
    (h : smallBossIdleOpt s.smallBoss) :
    smallBossFireSpawn M env k s = (k, s) := by
  unfold smallBossFireSpawn
  cases hs : s.smallBoss with
  | none => rfl
  | some sb =>
    rw [hs] at h
    simp only [smallBossIdleOpt] at h
    simp [h]

theorem smallBossFireSpawn_smallBoss (M : RealFns) (env : EnvInput) (k : ℕ)
    (s : GameState) :
    (smallBossFireSpawn M env k s).2.smallBoss = s.smallBoss := by
  simp only [smallBossFireSpawn]
  repeat' split
  all_goals rfl

theorem wallsPaddleShieldPhase_smallBoss (M : RealFns) (pX pW : ℚ) (s : GameState) :
    (wallsPaddleShieldPhase M pX pW s).smallBoss = s.smallBoss := rfl

theorem wallsPaddleShieldPhase_debuff (M : RealFns) (pX pW : ℚ) (s : GameState) :
    (wallsPaddleShieldPhase M pX pW s).debuffDamage = s.debuffDamage := rfl

theorem ballLossBlock_smallBoss (s : GameState) :
    (ballLossBlock s).1.smallBoss = s.smallBoss := by
  simp only [ballLossBlock]
  repeat' split
  all_goals rfl

theorem ballLossBlock_debuff (s : GameState) :
    (ballLossBlock s).1.debuffDamage = s.debuffDamage := by
  simp only [ballLossBlock]
  repeat' split
  all_goals rfl

theorem bossBallCollision_smallBoss (s : GameState) (ball : Ball) :
    (bossBallCollision s ball).1.smallBoss = s.smallBoss := by
  simp only [bossBallCollision]
  repeat' split
  all_goals rfl

theorem bossBallCollision_debuff (s : GameState) (ball : Ball) :
    (bossBallCollision s ball).1.debuffDamage = s.debuffDamage := by
  simp only [bossBallCollision]
  repeat' split
  all_goals rfl

theorem smallBossBallCollision_debuff (s : GameState) (ball : Ball) :
    (smallBossBallCollision s ball).debuffDamage = s.debuffDamage := by
  simp only [smallBossBallCollision]
  repeat' split
  all_goals rfl

/-- The ball-mini-boss collision may deactivate the mini-boss but
never clears the spawned flag. -/
theorem smallBossBallCollision_spawnedFlag (s : GameState) (ball : Ball)
    (h : spawnedFlag s.smallBoss) :
    spawnedFlag (smallBossBallCollision s ball).smallBoss := by
  unfold smallBossBallCollision
  obtain ⟨sb, heq, hsp⟩ := h
  rw [heq]
  dsimp only
  by_cases ha : sb.active = true
  · rw [if_pos ha]
    split
    · exact ⟨{ sb with active := false }, rfl, hsp⟩
    · exact ⟨sb, heq, hsp⟩
  · rw [if_neg ha]
    exact ⟨sb, heq, hsp⟩

/-- With the spawned flag set, a brick destruction cannot re-spawn the
mini-boss, so the slot is untouched. -/
theorem brickDestroyedEffects_spawned (activeBricks : ℕ) (env : EnvInput) (brick : Brick)
    (k : ℕ) (s : GameState) (sb : SmallBoss)
    (heq : s.smallBoss = some sb) (hsp : sb.spawned = true) :
    (brickDestroyedEffects activeBricks env brick k s).2.smallBoss = s.smallBoss := by
  unfold brickDestroyedEffects
  have hguard : ¬(10 * (s.bricks.length - activeBricks) ≥ 7 * s.bricks.length
      ∧ smallBossNotSpawned s.smallBoss = true) := by
    rintro ⟨-, hsn⟩
    rw [heq] at hsn
    simp only [smallBossNotSpawned, hsp] at hsn
    cases hsn
  dsimp only
  rw [if_neg hguard]
  dsimp only
  split <;> rfl

/-- With the spawned flag set, the whole damage loop leaves the
mini-boss slot untouched. -/
theorem damageBricks_spawned (activeBricks : ℕ) (env : EnvInput) (idxs : List ℕ)
    (sb : SmallBoss) (hsp : sb.spawned = true) :
    ∀ (k : ℕ) (s : GameState), s.smallBoss = some sb →
      (damageBricks activeBricks env idxs k s).2.smallBoss = s.smallBoss := by
  induction idxs with
  | nil =>
    intro k s _
    rfl
  | cons i rest ih =>
    intro k s heq
    unfold damageBricks
    split
    · exact ih k s heq
    · rename_i brick hb
      split
      · exact ih k s heq
      · lift_lets
        extract_lets nh s2
        have h2 : s2.smallBoss = some sb := heq
        split
        · lift_lets
          extract_lets ks
          have h3 : ks.2.smallBoss = s2.smallBoss :=
            brickDestroyedEffects_spawned activeBricks env _ k s2 sb h2 hsp
          exact (ih ks.1 ks.2 (h3.trans h2)).trans (h3.trans rfl)
        · exact (ih k s2 h2).trans rfl

theorem updateTimers_smallBoss (s : GameState) :
    (updateTimers s).smallBoss = s.smallBoss := by
  simp only [updateTimers, apply_ite GameState.smallBoss, ite_self]

theorem timeRamp_smallBoss (s : GameState) :
    (timeRamp s).smallBoss = s.smallBoss := by
  simp only [timeRamp]
  repeat' split
  all_goals rfl

theorem applyPowerupEffect_smallBoss (level : Level) (t : PowerupType) (s : GameState) :
    (applyPowerupEffect level t s).smallBoss = s.smallBoss := by
  simp only [applyPowerupEffect]
  repeat' split
  all_goals rfl

theorem powerupsGo_smallBoss (level : Level) (pX pW : ℚ) (l kept : List Powerup)
    (s : GameState) :
    (powerupsGo level pX pW l kept s).1.smallBoss = s.smallBoss := by
  induction l generalizing kept s with
  | nil => rfl
  | cons p rest ih =>
    unfold powerupsGo
    dsimp only
    split
    · exact ih _ _
    · split
      · exact (ih _ _).trans (applyPowerupEffect_smallBoss level _ s)
      · exact ih _ _

theorem powerupsPhase_smallBoss (level : Level) (pX pW : ℚ) (s : GameState) :
    (powerupsPhase level pX pW s).smallBoss = s.smallBoss :=
  powerupsGo_smallBoss level pX pW s.powerups.reverse [] s

theorem bdc_smallBoss (s : GameState) :
    (bossDefeatAndCountdown s).smallBoss = s.smallBoss := by
  simp only [bossDefeatAndCountdown]
  repeat' split
  all_goals rfl

theorem startBossBattle_smallBoss (level : Level) (s : GameState) :
    (startBossBattle level s).smallBoss = s.smallBoss := rfl

theorem winAndBossPhase_smallBoss (level : Level) (n : ℕ) (s : GameState) :
    (winAndBossPhase level n s).smallBoss = s.smallBoss := by
  unfold winAndBossPhase
  repeat' split
  all_goals simp [bdc_smallBoss, startBossBattle_smallBoss]

theorem applyInput_smallBoss (level : Level) (inp : UserInput) (s : GameState) :
    (applyInput level inp s).smallBoss = s.smallBoss := by
  simp only [applyInput]
  repeat' split
  all_goals rfl

theorem applyInput_debuff (level : Level) (inp : UserInput) (s : GameState) :
    (applyInput level inp s).debuffDamage = s.debuffDamage := by
  simp only [applyInput]
  repeat' split
  all_goals rfl

/-- With the debuff active the per-ball collision step is independent
of the environment (the only environment consumer, the damage loop, is
a no-op). -/
theorem ballBrickStep_env_eq (A : ℕ) (e1 e2 : EnvInput) (p : ℕ × GameState) (i : ℕ)
    (hp : p.2.debuffDamage > 0) :
    ballBrickStep A e1 p i = ballBrickStep A e2 p i := by
  unfold ballBrickStep
  split
  · rfl
  · rename_i ball hb
    lift_lets
    extract_lets ci sbp s2 ball2 s3
    have e3 : s3.debuffDamage = p.2.debuffDamage :=
      (smallBossBallCollision_debuff sbp.1 sbp.2).trans (bossBallCollision_debuff p.2 ball)
    have h3 : s3.debuffDamage > 0 := by
      rw [e3]
      exact hp
    rw [damageBricks_debuff_eq A e1 ci p.1 s3 h3, damageBricks_debuff_eq A e2 ci p.1 s3 h3]

/-- With the debuff active the per-ball collision step keeps the
debuff value. -/
theorem ballBrickStep_debuff (A : ℕ) (e : EnvInput) (p : ℕ × GameState) (i : ℕ)
    (hp : p.2.debuffDamage > 0) :
    (ballBrickStep A e p i).2.debuffDamage = p.2.debuffDamage := by
  unfold ballBrickStep
  split
  · rfl
  · rename_i ball hb
    lift_lets
    extract_lets ci sbp s2 ball2 s3
    have e3 : s3.debuffDamage = p.2.debuffDamage :=
      (smallBossBallCollision_debuff sbp.1 sbp.2).trans (bossBallCollision_debuff p.2 ball)
    have h3 : s3.debuffDamage > 0 := by
      rw [e3]
      exact hp
    rw [damageBricks_debuff_eq A e ci p.1 s3 h3]
    exact e3

/-- The per-ball collision step never clears the spawned flag. -/
theorem ballBrickStep_spawnedFlag (A : ℕ) (e : EnvInput) (p : ℕ × GameState) (i : ℕ)
    (h : spawnedFlag p.2.smallBoss) :
    spawnedFlag (ballBrickStep A e p i).2.smallBoss := by
  unfold ballBrickStep
  split
  · exact h
  · rename_i ball hb
    lift_lets
    extract_lets ci sbp s2 ball2 s3
    have h2 : spawnedFlag s2.smallBoss := by
      refine smallBossBallCollision_spawnedFlag sbp.1 sbp.2 ?_
      rw [bossBallCollision_smallBoss p.2 ball]
      exact h
    obtain ⟨sb2, heq2, hsp2⟩ := h2
    have h3 : (damageBricks A e ci p.1 s3).2.smallBoss = s3.smallBoss :=
      damageBricks_spawned A e ci sb2 hsp2 p.1 s3 heq2
    rw [h3]
    exact ⟨sb2, heq2, hsp2⟩

theorem foldl_ballBrickStep_env_eq (A : ℕ) (e1 e2 : EnvInput) :
    ∀ (l : List ℕ) (p : ℕ × GameState), p.2.debuffDamage > 0 →
      l.foldl (ballBrickStep A e1) p = l.foldl (ballBrickStep A e2) p := by
  intro l
  induction l with
  | nil =>
    intro p hp
    rfl
  | cons i rest ih =>
    intro p hp
    rw [List.foldl_cons, List.foldl_cons, ballBrickStep_env_eq A e1 e2 p i hp]
    refine ih _ ?_
    rw [ballBrickStep_debuff A e2 p i hp]
    exact hp

theorem foldl_ballBrickStep_spawnedFlag (A : ℕ) (e : EnvInput) :
    ∀ (l : List ℕ) (p : ℕ × GameState), spawnedFlag p.2.smallBoss →
      spawnedFlag (l.foldl (ballBrickStep A e) p).2.smallBoss := by
  intro l
  induction l with
  | nil =>
    intro p h
    exact h
  | cons i rest ih =>
    intro p h
    rw [List.foldl_cons]
    exact ih _ (ballBrickStep_spawnedFlag A e p i h)

/-- With the debuff active the whole per-ball collision phase is
independent of the environment. -/
theorem ballsBricksPhase_env_eq (A : ℕ) (e1 e2 : EnvInput) (k : ℕ) (s : GameState)
    (h : s.debuffDamage > 0) :
    ballsBricksPhase A e1 k s = ballsBricksPhase A e2 k s :=
  foldl_ballBrickStep_env_eq A e1 e2 (List.range s.balls.length) (k, s) h

/-- The per-ball collision phase never clears the spawned flag. -/
theorem ballsBricksPhase_spawnedFlag (A : ℕ) (e : EnvInput) (k : ℕ) (s : GameState)
    (h : spawnedFlag s.smallBoss) :
    spawnedFlag (ballsBricksPhase A e k s).2.smallBoss :=
  foldl_ballBrickStep_spawnedFlag A e (List.range s.balls.length) (k, s) h

/-- A tick that consumes no environment sample — debuff active (so no
brick damage, hence no power-up or spawn roll), idle mini-boss slot
(no fire roll), and a level whose id is not divisible by 5 (no clock
read) — produces the same state under any two environments. -/
theorem gameLoopTick_env_eq (M : RealFns) (level : Level) (e1 e2 : EnvInput)
    (s : GameState) (h1 : s.debuffDamage > 0) (h2 : smallBossIdleOpt s.smallBoss)
    (h3 : ¬level.id % 5 = 0) :
    gameLoopTick M level e1 s = gameLoopTick M level e2 s := by
  by_cases hrun : (!s.isRunning || s.isPaused) = true
  · unfold gameLoopTick
    rw [if_pos hrun, if_pos hrun]
  · simp only [gameLoopTick]
    rw [if_neg hrun, if_neg hrun]
    rw [if_neg h3, if_neg h3]
    set X4 := bossMovementPhase M (moveBalls (holdWaitingBalls (movePaddle s))) with hX4
    have hIdle4 : smallBossIdleOpt X4.smallBoss := by
      rw [hX4, bossMovementPhase_smallBoss, moveBalls_smallBoss, holdWaitingBalls_smallBoss,
        movePaddle_smallBoss]
      exact h2
    rw [smallBossMovementPhase_idle X4 hIdle4]
    have hIdle7 : ∀ pX pW : ℚ, smallBossIdleOpt (updateFireballs pX pW X4).smallBoss := by
      intro pX pW
      rw [updateFireballs_smallBoss]
      exact hIdle4
    rw [smallBossFireSpawn_idle M e1 0 _ (hIdle7 _ _),
      smallBossFireSpawn_idle M e2 0 _ (hIdle7 _ _)]
    dsimp only
    have hdz : ∀ pX pW : ℚ,
        ((ballLossBlock (wallsPaddleShieldPhase M pX pW
          (updateFireballs pX pW X4))).1).debuffDamage > 0 := by
      intro pX pW
      rw [ballLossBlock_debuff, wallsPaddleShieldPhase_debuff, updateFireballs_debuff, hX4,
        bossMovementPhase_debuff, moveBalls_debuff, holdWaitingBalls_debuff, movePaddle_debuff]
      exact h1
    rw [ballsBricksPhase_env_eq _ e1 e2 _ _ (hdz _ _)]

/-! ## Claims -/

/-- C1: the claim states that the terminal callback is invoked exactly
once per run.  The code violates it: when a boss or mini-boss fireball
kills the player on the very tick the brick-clear win check passes,
the `return` inside `updateFireballs` only exits that helper, the tick
continues, and `onGameOver` is invoked twice in the same tick — first
with `won = false`, then with `won = true`.  This theorem evaluates
the tick at such a state and exhibits both invocations. -/
theorem c1_double_game_over :
    c1State.onGameOverCalls = [] ∧
    (gameLoopTick trivialFns lvl1 (constEnv (1/2)) c1State).onGameOverCalls
      = [(620, false), (620, true)] := by
  with_unfolding_all decide

/-- C8: the claim states lives stay within 0..3.  The code violates
the lower bound: with one life left, a fireball reaching the paddle
(processed first) drops lives to 0 and calls `onGameOver`, but the
tick continues, and the all-balls-lost block of the same tick
decrements lives again to -1.  This theorem evaluates the tick at such
a state. -/
theorem c8_lives_below_zero :
    c8State.lives = 1 ∧
    (gameLoopTick trivialFns lvl1 (constEnv (1/2)) c8State).lives = -1 := by
  with_unfolding_all decide

/-- C5 counterexample: during the boss-destruction countdown
(`bossDestructionTimer = 60`), a ball overlapping the boss still
decrements the boss's health field (0 becomes -1), and a fireball
reaching the paddle still consumes an active shield — refuting the
claim that in that window the boss neither takes damage nor causes
shield consumption.  (Lives are indeed untouched.) -/
theorem c5_window_counterexample :
    c5State.bossDestructionTimer = 60
    ∧ c5State.shieldActive = true
    ∧ c5State.boss.map Boss.health = some 0
    ∧ (gameLoopTick trivialFns lvl5 (constEnv (1/2)) c5State).boss.map Boss.health
        = some (-1)
    ∧ (gameLoopTick trivialFns lvl5 (constEnv (1/2)) c5State).shieldActive = false
    ∧ (gameLoopTick trivialFns lvl5 (constEnv (1/2)) c5State).lives = c5State.lives := by
  with_unfolding_all decide

/-- C5 (amended): during the destruction window the boss deals no life
damage — a fireball reaching the paddle with no shield active leaves
the lives counter unchanged — and the countdown merely decrements,
never re-arming to 120.  (As the counterexample shows, the boss's
health field can still change and a shield can still be consumed.) -/
theorem c5_window_no_life_loss (s : GameState)
    (h1 : 0 < s.bossDestructionTimer) (h2 : s.shieldActive = false) :
    (fireballPaddleResolve s).lives = s.lives
    ∧ (bossDefeatAndCountdown s).bossDestructionTimer = s.bossDestructionTimer - 1 := by
  constructor
  · unfold fireballPaddleResolve
    rw [if_neg (by simp [h2]), if_neg (Nat.pos_iff_ne_zero.mp h1)]
  · unfold bossDefeatAndCountdown
    have hguard : ¬(s.bossActive = true ∧ bossHealthDepleted s.boss = true
        ∧ s.bossDestructionTimer = 0) :=
      fun hc => (Nat.pos_iff_ne_zero.mp h1) hc.2.2
    rw [if_neg hguard, if_pos h1]
    by_cases ht : s.bossDestructionTimer - 1 = 0 <;> simp [ht]

set_option maxRecDepth 40000 in
/-- Witness for C5's amended theorem at a concrete in-window state. -/
theorem c5_window_no_life_loss_witness :
    (fireballPaddleResolve { baseState with bossDestructionTimer := 60 }).lives
        = ({ baseState with bossDestructionTimer := 60 } : GameState).lives
    ∧ (bossDefeatAndCountdown { baseState with bossDestructionTimer := 60 }).bossDestructionTimer
        = ({ baseState with bossDestructionTimer := 60 } : GameState).bossDestructionTimer - 1 :=
  c5_window_no_life_loss { baseState with bossDestructionTimer := 60 } (by decide) rfl

set_option maxRecDepth 200000 in
/-- C3 counterexample: two ticks fed the identical user input (none)
from the identical state, differing only in the `Math.random()`
stream, end in different simulation states — the 25% power-up roll on
the destroyed brick succeeds under one stream and fails under the
other.  This refutes determinism with respect to the per-tick user
inputs alone. -/
theorem c3_random_divergence :
    (stepGame trivialFns lvl1 noInput (constEnv (1/10)) c3State).powerups.length = 1
    ∧ (stepGame trivialFns lvl1 noInput (constEnv (1/2)) c3State).powerups.length = 0
    ∧ stepGame trivialFns lvl1 noInput (constEnv (1/10)) c3State
        ≠ stepGame trivialFns lvl1 noInput (constEnv (1/2)) c3State := by
  with_unfolding_all decide

/-- C3 (amended): the next state is a function of the prior state, the
user input and the per-tick environment samples; and a tick that
consumes no environment sample — brick damage suppressed by an active
debuff, idle mini-boss slot, level id not divisible by 5 — is fully
determined by the prior state and user input alone: any two
environments give the same state. -/
theorem c3_deterministic_given_env (M : RealFns) (level : Level) (u : UserInput)
    (e1 e2 : EnvInput) (s : GameState)
    (h1 : s.debuffDamage > 0) (h2 : smallBossIdleOpt s.smallBoss)
    (h3 : ¬level.id % 5 = 0) :
    stepGame M level u e1 s = stepGame M level u e2 s := by
  unfold stepGame
  refine gameLoopTick_env_eq M level e1 e2 _ ?_ ?_ h3
  · rw [applyInput_debuff]
    exact h1
  · rw [applyInput_smallBoss]
    exact h2

/-- Witness for C3's amended theorem: with the debuff active and no
mini-boss, two different random streams give the same tick result. -/
theorem c3_deterministic_given_env_witness :
    stepGame trivialFns lvl1 noInput (constEnv (1/10))
        { c3State with debuffDamage := 1, debuffDamageTimer := 300 }
      = stepGame trivialFns lvl1 noInput (constEnv (1/2))
        { c3State with debuffDamage := 1, debuffDamageTimer := 300 } :=
  c3_deterministic_given_env trivialFns lvl1 noInput (constEnv (1/10)) (constEnv (1/2))
    { c3State with debuffDamage := 1, debuffDamageTimer := 300 }
    (by decide) trivial (by decide)

/-- C6 (amended): the mini-boss spawns at most once per level — once
its `spawned` flag is set, no later tick clears it or re-spawns
(`spawnSmallBoss` is guarded by the flag, and every other write to the
slot preserves it), so after any tick the slot still holds a spawned
mini-boss. -/
theorem c6_spawn_at_most_once (M : RealFns) (level : Level) (env : EnvInput)
    (s : GameState) (sb : SmallBoss)
    (heq : s.smallBoss = some sb) (hsp : sb.spawned = true) :
    ∃ sb2, (gameLoopTick M level env s).smallBoss = some sb2 ∧ sb2.spawned = true := by
  by_cases hrun : (!s.isRunning || s.isPaused) = true
  · unfold gameLoopTick
    rw [if_pos hrun]
    exact ⟨sb, heq, hsp⟩
  · simp only [gameLoopTick]
    rw [if_neg hrun]
    split <;> split
    · rw [ballLossBlock_smallBoss, wallsPaddleShieldPhase_smallBoss,
        smallBossFireSpawn_smallBoss, updateFireballs_smallBoss,
        updateBrickMovement_smallBoss]
      refine smallBossMovementPhase_spawnedFlag _ ?_
      rw [bossMovementPhase_smallBoss, moveBalls_smallBoss, holdWaitingBalls_smallBoss,
        movePaddle_smallBoss]
      exact ⟨sb, heq, hsp⟩
    · rw [winAndBossPhase_smallBoss, powerupsPhase_smallBoss, timeRamp_smallBoss,
        updateTimers_smallBoss]
      refine ballsBricksPhase_spawnedFlag _ _ _ _ ?_
      rw [ballLossBlock_smallBoss, wallsPaddleShieldPhase_smallBoss,
        smallBossFireSpawn_smallBoss, updateFireballs_smallBoss,
        updateBrickMovement_smallBoss]
      refine smallBossMovementPhase_spawnedFlag _ ?_
      rw [bossMovementPhase_smallBoss, moveBalls_smallBoss, holdWaitingBalls_smallBoss,
        movePaddle_smallBoss]
      exact ⟨sb, heq, hsp⟩
    · rw [ballLossBlock_smallBoss, wallsPaddleShieldPhase_smallBoss,
        smallBossFireSpawn_smallBoss, updateFireballs_smallBoss]
      refine smallBossMovementPhase_spawnedFlag _ ?_
      rw [bossMovementPhase_smallBoss, moveBalls_smallBoss, holdWaitingBalls_smallBoss,
        movePaddle_smallBoss]
      exact ⟨sb, heq, hsp⟩
    · rw [winAndBossPhase_smallBoss, powerupsPhase_smallBoss, timeRamp_smallBoss,
        updateTimers_smallBoss]
      refine ballsBricksPhase_spawnedFlag _ _ _ _ ?_
      rw [ballLossBlock_smallBoss, wallsPaddleShieldPhase_smallBoss,
        smallBossFireSpawn_smallBoss, updateFireballs_smallBoss]
      refine smallBossMovementPhase_spawnedFlag _ ?_
      rw [bossMovementPhase_smallBoss, moveBalls_smallBoss, holdWaitingBalls_smallBoss,
        movePaddle_smallBoss]
      exact ⟨sb, heq, hsp⟩

/-- Witness for C6's amended theorem: a state whose mini-boss has
spawned and left; after a tick the slot still records the spawn. -/
theorem c6_spawn_at_most_once_witness :
    ∃ sb2, (gameLoopTick trivialFns lvl1 (constEnv (1/2))
        { baseState with smallBoss := some idleSmallBoss }).smallBoss = some sb2
      ∧ sb2.spawned = true :=
  c6_spawn_at_most_once trivialFns lvl1 (constEnv (1/2))
    { baseState with smallBoss := some idleSmallBoss } idleSmallBoss rfl rfl

/-- C6 counterexample: in `c6State` the destroyed fraction is 6/10
before the tick and 7/10 after it — this is the first tick at which
`destroyedBricks / totalBricks ≥ 0.7` holds — yet no mini-boss spawns
(`smallBoss` is still `null`), because the spawn check uses the brick
census taken before this tick's collisions.  This refutes the claim
that the spawn fires at the first tick at which the ratio is
reached. -/
theorem c6_ratio_counterexample :
    c6State.smallBoss = none
    ∧ 10 * (c6State.bricks.filter (fun b => b.hits ≤ 0)).length
        < 7 * c6State.bricks.length
    ∧ (gameLoopTick trivialFns lvl1 (constEnv (1/2)) c6State).smallBoss = none
    ∧ 10 * ((gameLoopTick trivialFns lvl1 (constEnv (1/2)) c6State).bricks.filter
          (fun b => b.hits ≤ 0)).length
        ≥ 7 * (gameLoopTick trivialFns lvl1 (constEnv (1/2)) c6State).bricks.length := by
  with_unfolding_all decide

/-- C7 counterexample: with the ball centre exactly on the brick
corner the two penetration depths tie, and the resolver inverts `dy`
(leaving `dx` unchanged) — whereas the claim's "otherwise inverts dx"
assigns the tie to a `dx` inversion.  The claim is false at this
input. -/
theorem c7_tie_counterexample :
    vertPenetration c7Ball c7Brick = horizPenetration c7Ball c7Brick
    ∧ ¬((singleBrickBounce c7Ball c7Brick).dx = -c7Ball.dx
        ∧ (singleBrickBounce c7Ball c7Brick).dy = c7Ball.dy)
    ∧ (singleBrickBounce c7Ball c7Brick).dy = -c7Ball.dy
    ∧ (singleBrickBounce c7Ball c7Brick).dx = c7Ball.dx := by
  with_unfolding_all decide

/-- C7 (amended): the single-brick resolver inverts `dx` (leaving `dy`
unchanged) exactly when the horizontal penetration depth is strictly
smaller than the vertical one, and otherwise — ties included — inverts
`dy` (leaving `dx` unchanged); exactly one component is inverted
either way. -/
theorem c7_single_brick_bounce (ball : Ball) (brick : Brick) :
    if horizPenetration ball brick < vertPenetration ball brick then
      (singleBrickBounce ball brick).dx = -ball.dx
      ∧ (singleBrickBounce ball brick).dy = ball.dy
    else
      (singleBrickBounce ball brick).dy = -ball.dy
      ∧ (singleBrickBounce ball brick).dx = ball.dx := by
  have key : singleBrickBounce ball brick
      = if horizPenetration ball brick < vertPenetration ball brick
        then { ball with dx := -ball.dx } else { ball with dy := -ball.dy } := rfl
  rw [key]
  split <;> exact ⟨rfl, rfl⟩

/-- C9: while the debuff-damage flag is active, a tick's
brick-collision damage pass changes no brick's `hits`, and none of the
destruction consequences fire: the score, the power-up list and the
mini-boss slot are all left untouched (the pass is a no-op on the
state). -/
theorem c9_debuff_blocks_damage (activeBricks : ℕ) (env : EnvInput) (idxs : List ℕ)
    (k : ℕ) (s : GameState) (h : s.debuffDamage > 0) :
    (damageBricks activeBricks env idxs k s).2.bricks = s.bricks
    ∧ (damageBricks activeBricks env idxs k s).2.score = s.score
    ∧ (damageBricks activeBricks env idxs k s).2.powerups = s.powerups
    ∧ (damageBricks activeBricks env idxs k s).2.smallBoss = s.smallBoss := by
  rw [damageBricks_debuff_eq activeBricks env idxs k s h]
  exact ⟨rfl, rfl, rfl, rfl⟩

/-- Witness for C9 at a concrete state with the debuff active and a
colliding brick. -/
theorem c9_debuff_blocks_damage_witness :
    (damageBricks 10 (constEnv (1/10)) [0] 0
        { c3State with debuffDamage := 1 }).2.bricks
      = ({ c3State with debuffDamage := 1 } : GameState).bricks
    ∧ (damageBricks 10 (constEnv (1/10)) [0] 0
        { c3State with debuffDamage := 1 }).2.score
      = ({ c3State with debuffDamage := 1 } : GameState).score
    ∧ (damageBricks 10 (constEnv (1/10)) [0] 0
        { c3State with debuffDamage := 1 }).2.powerups
      = ({ c3State with debuffDamage := 1 } : GameState).powerups
    ∧ (damageBricks 10 (constEnv (1/10)) [0] 0
        { c3State with debuffDamage := 1 }).2.smallBoss
      = ({ c3State with debuffDamage := 1 } : GameState).smallBoss :=
  c9_debuff_blocks_damage 10 (constEnv (1/10)) [0] 0
    { c3State with debuffDamage := 1 } (by decide)

/-- C10: applying the TEMP_DAMAGE power-up while `permanentDamage > 0`
zeroes the permanent stack in the same tick, sets the temporary damage
value to 1, and starts its 20-second (1200-tick) countdown. -/
theorem c10_temp_damage_resets_perm (level : Level) (s : GameState)
    (h : s.damageBonus > 0) :
    (applyPowerupEffect level .temp_damage s).damageBonus = 0
    ∧ (applyPowerupEffect level .temp_damage s).tempDamage = 1
    ∧ (applyPowerupEffect level .temp_damage s).tempDamageTimer = 20 * 60 := by
  unfold applyPowerupEffect
  rw [if_pos h]
  exact ⟨rfl, rfl, rfl⟩

/-- C4: an active shield absorbs exactly one loss event.  On total
ball loss the life counter is untouched and the shield flag drops to
false (even though its timer keeps running); on a fireball reaching
the paddle likewise; a downward ball crossing the shield plane below
the paddle only has its `dy` inverted (leaving `dx`, and the shield
flag — which the wall/paddle/shield phase never writes — unchanged). -/
theorem c4_shield_single_consumption (M : RealFns) (pX pW : ℚ) (s : GameState)
    (ball : Ball)
    (h1 : s.shieldActive = true)
    (h2 : s.balls ≠ [])
    (h3 : s.balls.filter (ballSurvives s.waitingForLaunch) = [])
    (h4 : ball.y + ball.radius > s.paddle.y + s.paddle.height + 5)
    (h5 : ball.y - ball.radius < s.paddle.y + s.paddle.height + 12)
    (h6 : ball.dy > 0) :
    ((ballLossBlock s).1.lives = s.lives ∧ (ballLossBlock s).1.shieldActive = false)
    ∧ ((fireballPaddleResolve s).lives = s.lives
        ∧ (fireballPaddleResolve s).shieldActive = false)
    ∧ shieldBounceCheck s.shieldActive s.paddle ball = { ball with dy := -ball.dy }
    ∧ (wallsPaddleShieldPhase M pX pW s).shieldActive = s.shieldActive := by
  refine ⟨?_, ?_, ?_, rfl⟩
  · have hlen : 0 < s.balls.length := List.length_pos.mpr h2
    unfold ballLossBlock
    rw [h3]
    simp only [List.length_nil]
    rw [if_pos ⟨hlen, trivial⟩, if_pos h1]
    split <;> exact ⟨rfl, rfl⟩
  · unfold fireballPaddleResolve
    rw [if_pos h1]
    exact ⟨rfl, rfl⟩
  · unfold shieldBounceCheck
    rw [if_pos ⟨h1, h4, h5, h6⟩]

/-- The probe ball of the C4 witness, crossing the shield plane. -/
def c4ProbeBall : Ball := { x := 400, y := 1030, dx := 1, dy := 5, radius := 15 }

/-- C4 witness state: shield active, the only ball below the field. -/
def c4WState : GameState :=
  { baseState with
    shieldActive := true, shieldTimer := 700,
    balls := [{ x := 400, y := 1290, dx := 0, dy := 6, radius := 15 }] }

set_option maxRecDepth 40000 in
/-- Witness for C4: shield active, the only ball below the field, and
a downward probe ball crossing the shield plane. -/
theorem c4_shield_single_consumption_witness :
    ((ballLossBlock c4WState).1.lives = c4WState.lives
      ∧ (ballLossBlock c4WState).1.shieldActive = false)
    ∧ ((fireballPaddleResolve c4WState).lives = c4WState.lives
      ∧ (fireballPaddleResolve c4WState).shieldActive = false)
    ∧ shieldBounceCheck c4WState.shieldActive c4WState.paddle c4ProbeBall
        = { c4ProbeBall with dy := -c4ProbeBall.dy }
    ∧ (wallsPaddleShieldPhase trivialFns 321 168 c4WState).shieldActive
        = c4WState.shieldActive :=
  c4_shield_single_consumption trivialFns 321 168 c4WState c4ProbeBall
    rfl (by decide) (by with_unfolding_all decide)
    (by with_unfolding_all decide) (by with_unfolding_all decide)
    (by with_unfolding_all decide)

/-- The boss-defeat/countdown block emits no callback unless the
countdown stands at exactly 1 when it is entered (a freshly armed
countdown starts at 120 and only decrements to 119 this tick). -/
theorem bdc_no_call_of_timer_ne_one (s : GameState) (h : s.bossDestructionTimer ≠ 1) :
    (bossDefeatAndCountdown s).onGameOverCalls = s.onGameOverCalls := by
  unfold bossDefeatAndCountdown
  by_cases hg : s.bossActive = true ∧ bossHealthDepleted s.boss = true
      ∧ s.bossDestructionTimer = 0
  · simp only [if_pos hg]
    norm_num
  · simp only [if_neg hg]
    by_cases hp : 0 < s.bossDestructionTimer
    · have h1 : s.bossDestructionTimer - 1 ≠ 0 := by omega
      simp [hp, h1]
    · simp [hp]

/-- The boss-defeat/countdown block emits the win callback exactly
when the countdown stands at 1 on entry. -/
theorem bdc_call_of_timer_one (s : GameState) (h : s.bossDestructionTimer = 1) :
    (bossDefeatAndCountdown s).onGameOverCalls = s.onGameOverCalls ++ [(s.score, true)] := by
  unfold bossDefeatAndCountdown
  have hg : ¬(s.bossActive = true ∧ bossHealthDepleted s.boss = true
      ∧ s.bossDestructionTimer = 0) := by
    intro hc
    rw [h] at hc
    exact absurd hc.2.2 one_ne_zero
  simp only [if_neg hg]
  simp [h]

/-- The boss-defeat/countdown block never changes `bossActive`. -/
theorem bdc_bossActive (s : GameState) :
    (bossDefeatAndCountdown s).bossActive = s.bossActive := by
  unfold bossDefeatAndCountdown
  by_cases hg : s.bossActive = true ∧ bossHealthDepleted s.boss = true
      ∧ s.bossDestructionTimer = 0
  · simp only [if_pos hg]
    norm_num
  · simp only [if_neg hg]
    by_cases hp : 0 < s.bossDestructionTimer
    · by_cases h1 : s.bossDestructionTimer - 1 = 0 <;> simp [hp, h1]
    · simp [hp]

/-- `startBossBattle` does not touch the destruction countdown. -/
theorem startBossBattle_timer (level : Level) (s : GameState) :
    (startBossBattle level s).bossDestructionTimer = s.bossDestructionTimer := rfl

/-- `startBossBattle` does not emit a callback. -/
theorem startBossBattle_calls (level : Level) (s : GameState) :
    (startBossBattle level s).onGameOverCalls = s.onGameOverCalls := rfl

/-- `startBossBattle` activates the boss. -/
theorem startBossBattle_bossActive (level : Level) (s : GameState) :
    (startBossBattle level s).bossActive = true := rfl

/-- C2: on a tick's end-of-tick evaluation, the win callback fires
exactly when the live-brick census is 0 and either the level id is not
divisible by 5 or the boss's destruction countdown completes this tick
(stands at 1 on entry); and on a boss level, reaching 0 live bricks
with no boss active spawns the boss and does not win.  Stated under
the run invariants that an active boss implies a cleared boss level
and that a running countdown implies an active boss. -/
theorem c2_win_trigger (level : Level) (n : ℕ) (s : GameState)
    (hboss : s.bossActive = true → level.id % 5 = 0 ∧ n = 0)
    (htimer : 0 < s.bossDestructionTimer → s.bossActive = true) :
    ((winAndBossPhase level n s).onGameOverCalls
        = s.onGameOverCalls ++ [(s.score, true)]
      ↔ n = 0 ∧ (level.id % 5 ≠ 0 ∨ s.bossDestructionTimer = 1))
    ∧ ((n = 0 ∧ level.id % 5 = 0 ∧ s.bossActive = false) →
        (winAndBossPhase level n s).bossActive = true
        ∧ (winAndBossPhase level n s).onGameOverCalls = s.onGameOverCalls) := by
  unfold winAndBossPhase
  by_cases hn : n = 0
  · rw [if_pos hn]
    by_cases hb : s.bossActive = true
    · obtain ⟨h5, -⟩ := hboss hb
      rw [if_neg (fun hc => hc.2 hb), if_neg (fun hc => hc hb)]
      constructor
      · by_cases ht : s.bossDestructionTimer = 1
        · rw [bdc_call_of_timer_one s ht]
          simp [hn, ht]
        · rw [bdc_no_call_of_timer_ne_one s ht]
          constructor
          · intro hEq
            exact absurd hEq (self_ne_append_single _ _)
          · rintro ⟨-, hcase⟩
            rcases hcase with h5' | ht'
            · exact absurd h5 h5'
            · exact absurd ht' ht
      · rintro ⟨-, -, hbf⟩
        rw [hb] at hbf
        cases hbf
    · have ht0 : s.bossDestructionTimer = 0 := by
        by_contra hne
        exact hb (htimer (Nat.pos_of_ne_zero hne))
      by_cases h5 : level.id % 5 = 0
      · rw [if_pos ⟨h5, hb⟩]
        have hsbt : (startBossBattle level s).bossDestructionTimer ≠ 1 := by
          rw [startBossBattle_timer, ht0]
          exact zero_ne_one
        constructor
        · rw [bdc_no_call_of_timer_ne_one _ hsbt, startBossBattle_calls]
          constructor
          · intro hEq
            exact absurd hEq (self_ne_append_single _ _)
          · rintro ⟨-, hcase⟩
            rcases hcase with h5' | ht'
            · exact absurd h5 h5'
            · rw [ht0] at ht'
              exact absurd ht' zero_ne_one
        · intro _
          refine ⟨?_, ?_⟩
          · rw [bdc_bossActive, startBossBattle_bossActive]
          · rw [bdc_no_call_of_timer_ne_one _ hsbt, startBossBattle_calls]
      · rw [if_neg (fun hc => h5 hc.1), if_pos hb]
        constructor
        · constructor
          · intro _
            exact ⟨hn, Or.inl h5⟩
          · intro _
            rfl
        · rintro ⟨-, h5', -⟩
          exact absurd h5' h5
  · rw [if_neg hn]
    have hb : s.bossActive = false := by
      cases hba : s.bossActive
      · rfl
      · exact absurd (hboss hba).2 hn
    have ht0 : s.bossDestructionTimer = 0 := by
      by_contra hne
      rw [htimer (Nat.pos_of_ne_zero hne)] at hb
      cases hb
    constructor
    · rw [bdc_no_call_of_timer_ne_one s (by rw [ht0]; exact zero_ne_one)]
      constructor
      · intro hEq
        exact absurd hEq (self_ne_append_single _ _)
      · rintro ⟨hn0, -⟩
        exact absurd hn0 hn
    · rintro ⟨hn0, -, -⟩
      exact absurd hn0 hn

set_option maxRecDepth 40000 in
/-- Witness for C2 at a concrete cleared non-boss-level state (the win
fires, matching the characterization). -/
theorem c2_win_trigger_witness :
    (((winAndBossPhase lvl1 0 baseState).onGameOverCalls
        = baseState.onGameOverCalls ++ [(baseState.score, true)]
      ↔ 0 = 0 ∧ (lvl1.id % 5 ≠ 0 ∨ baseState.bossDestructionTimer = 1))
    ∧ ((0 = 0 ∧ lvl1.id % 5 = 0 ∧ baseState.bossActive = false) →
        (winAndBossPhase lvl1 0 baseState).bossActive = true
        ∧ (winAndBossPhase lvl1 0 baseState).onGameOverCalls
            = baseState.onGameOverCalls)) :=
  c2_win_trigger lvl1 0 baseState (by decide) (by decide)

/-- Witness for C10 at a concrete state with a permanent-damage stack
of 2. -/
theorem c10_temp_damage_resets_perm_witness :
    (applyPowerupEffect lvl1 .temp_damage { baseState with damageBonus := 2 }).damageBonus = 0
    ∧ (applyPowerupEffect lvl1 .temp_damage { baseState with damageBonus := 2 }).tempDamage = 1
    ∧ (applyPowerupEffect lvl1 .temp_damage
        { baseState with damageBonus := 2 }).tempDamageTimer = 20 * 60 :=
  c10_temp_damage_resets_perm lvl1 { baseState with damageBonus := 2 } (by decide)

end BreakBricks
